import Mathlib

set_option maxHeartbeats 1000000

/-!
Verification development for the `ml_workflow_logger` experiment-tracking
client.  The Python source under `ml_workflow_logger/` is shallowly embedded:
dictionaries become association lists, object identity of shared mutable
dictionaries becomes explicit references into a memory of cells, clock reads
and uuid generation become explicit input parameters, and raised exceptions
become `Except` / `Option` error values.
-/

namespace MLWF

/-- Values stored in step-data / metrics dictionaries (`Any` in the source;
an explicit value type with decidable equality in the embedding). -/
inductive Val where
  | vstr : String → Val
  | vint : Int → Val
deriving DecidableEq

/-- A Python `dict` keyed by strings, as an insertion-ordered association list. -/
abbrev Dict := List (String × Val)

/-- Python dictionary lookup `d.get(k)` / `d[k]`: value at the first matching key. -/
def pyGet {α : Type} : List (String × α) → String → Option α
  | [], _ => none
  | p :: rest, k => if p.1 = k then some p.2 else pyGet rest k

/-- Python dictionary assignment `d[k] = v`: replace the value at the first
occurrence of the key in place, otherwise append the new pair. -/
def pySet {α : Type} : List (String × α) → String → α → List (String × α)
  | [], k, v => [(k, v)]
  | p :: rest, k, v => if p.1 = k then (k, v) :: rest else p :: pySet rest k v

/-- Python `old.update(upd)`: assign every pair of `upd` into `old` in order
(existing keys overwritten, new keys appended; last write wins per key). -/
def dictUpdate (old upd : Dict) : Dict :=
  upd.foldl (fun acc p => pySet acc p.1 p.2) old

theorem pyGet_pySet_self {α : Type} (d : List (String × α)) (k : String) (v : α) :
    pyGet (pySet d k v) k = some v := by
  induction d with
  | nil => simp [pySet, pyGet]
  | cons p rest ih =>
    by_cases h : p.1 = k
    · simp [pySet, h, pyGet]
    · simp [pySet, h, pyGet, ih]

theorem pyGet_pySet_ne {α : Type} (d : List (String × α)) (k k' : String) (v : α)
    (h : k ≠ k') : pyGet (pySet d k v) k' = pyGet d k' := by
  induction d with
  | nil => simp [pySet, pyGet, h]
  | cons p rest ih =>
    by_cases hp : p.1 = k
    · simp [pySet, hp, pyGet, h, hp ▸ h]
    · simp [pySet, hp, pyGet, ih]

theorem pyGet_mem {α : Type} (d : List (String × α)) (k : String) (v : α)
    (h : pyGet d k = some v) : (k, v) ∈ d := by
  induction d with
  | nil => simp [pyGet] at h
  | cons p rest ih =>
    by_cases hp : p.1 = k
    · simp [pyGet, hp] at h
      have hpv : p = (k, v) := Prod.ext hp h
      rw [← hpv]
      exact List.mem_cons_self p rest
    · simp [pyGet, hp] at h
      exact List.mem_cons_of_mem _ (ih h)

theorem pyGet_dictUpdate_none (old upd : Dict) (k : String)
    (h : pyGet upd k = none) : pyGet (dictUpdate old upd) k = pyGet old k := by
  induction upd generalizing old with
  | nil => simp [dictUpdate]
  | cons p rest ih =>
    by_cases hp : p.1 = k
    · simp [pyGet, hp] at h
    · simp [pyGet, hp] at h
      have hstep : dictUpdate old (p :: rest) = dictUpdate (pySet old p.1 p.2) rest := rfl
      rw [hstep, ih _ h, pyGet_pySet_ne _ _ _ _ hp]

theorem pyGet_dictUpdate_of_uniform (old upd : Dict) (k : String) (v : Val)
    (hget : pyGet upd k = some v)
    (huni : ∀ p ∈ upd, p.1 = k → p.2 = v) :
    pyGet (dictUpdate old upd) k = some v := by
  induction upd generalizing old with
  | nil => simp [pyGet] at hget
  | cons p rest ih =>
    have hstep : dictUpdate old (p :: rest) = dictUpdate (pySet old p.1 p.2) rest := rfl
    rw [hstep]
    cases hrest : pyGet rest k with
    | some v' =>
      have hv' : v' = v := by
        have hmem : (k, v') ∈ rest := pyGet_mem _ _ _ hrest
        exact huni (k, v') (List.mem_cons_of_mem _ hmem) rfl
      subst hv'
      exact ih _ hrest (fun q hq hqk => huni q (List.mem_cons_of_mem _ hq) hqk)
    | none =>
      by_cases hp : p.1 = k
      · simp [pyGet, hp] at hget
        rw [pyGet_dictUpdate_none _ _ _ hrest, hp, hget, pyGet_pySet_self]
      · simp [pyGet, hp] at hget
        rw [hget] at hrest
        simp at hrest

/-- The process memory of shared mutable dictionary objects.  Each cell is one
Python dict object; a `step_ref` below is an index into this list. -/
structure Mem where
  cells : List Dict
deriving DecidableEq

def cellsGet : List Dict → Nat → Dict
  | [], _ => []
  | c :: _, 0 => c
  | _ :: rest, n + 1 => cellsGet rest n

def cellsMerge : List Dict → Nat → Dict → List Dict
  | [], _, _ => []
  | c :: rest, 0, upd => dictUpdate c upd :: rest
  | c :: rest, n + 1, upd => c :: cellsMerge rest n upd

/-- Dereference a dict object. -/
def Mem.read (m : Mem) (r : Nat) : Dict := cellsGet m.cells r

/-- In-place `cell.update(upd)` on the dict object at reference `r`. -/
def Mem.mergeAt (m : Mem) (r : Nat) (upd : Dict) : Mem := ⟨cellsMerge m.cells r upd⟩

/-- Allocate a fresh dict object (a dict literal passed by the caller). -/
def Mem.alloc (m : Mem) (d : Dict) : Mem × Nat := (⟨m.cells ++ [d]⟩, m.cells.length)

/-- Reference of the single shared default dict created once for the
`step_data={}` default argument of `Flow.add_step` (flow.py line 32): Python
evaluates the default expression once at function definition time, so every
call that omits `step_data` receives this same object. -/
def addStepDefaultRef : Nat := 0

/-- Memory at process start: only the shared `add_step` default dict exists. -/
def initMem : Mem := ⟨[[]]⟩

theorem cellsGet_cellsMerge_self (l : List Dict) (r : Nat) (upd : Dict)
    (h : r < l.length) :
    cellsGet (cellsMerge l r upd) r = dictUpdate (cellsGet l r) upd := by
  induction l generalizing r with
  | nil => simp at h
  | cons c rest ih =>
    cases r with
    | zero => simp [cellsMerge, cellsGet]
    | succ n =>
      simp only [cellsMerge, cellsGet]
      exact ih n (by simpa using h)

/-- The `ValueError` kinds raised by the `Flow` and `Run` entity methods
(flow.py, run.py): locked flow, duplicate step, unknown step, invalid status. -/
inductive VErr where
  | locked
  | duplicateStep (name : String)
  | unknownStep (name : String)
  | invalidStatus (status : String)
deriving DecidableEq

/-- `valid_statuses` of `Flow.update_status` (flow.py line 106) and
`Run.update_status` (run.py line 56). -/
def validStatuses : List String := ["created", "running", "completed", "failed"]

/-- A step of a flow (flow.py `Step` dataclass): the name, and a reference to
the dict object holding its `step_data` (the dict is stored by reference, so
it may be shared with other steps). -/
structure Step where
  step_name : String
  step_ref : Nat
deriving DecidableEq

/-- The `Flow` entity (flow.py lines 20-31).  The networkx `DiGraph` is
embedded as its node list and edge list. -/
structure Flow where
  local_flow_id : String
  is_locked : Bool
  flow_name : String
  status : String
  steps : List Step
  dagNodes : List String
  dagEdges : List (String × String)
deriving DecidableEq

/-- `Flow.__init__` (flow.py lines 22-30); the generated uuid is an input. -/
def mkFlow (freshUuid flow_name : String) : Flow :=
  { local_flow_id := freshUuid, is_locked := false, flow_name := flow_name,
    status := "created", steps := [], dagNodes := [], dagEdges := [] }

/-- networkx `DiGraph.add_node`: adds the node unless already present. -/
def addNode (nodes : List String) (n : String) : List String :=
  if n ∈ nodes then nodes else nodes ++ [n]

/-- networkx `DiGraph.add_edge` on existing nodes: records the directed edge
unless already present. -/
def addEdge (edges : List (String × String)) (s t : String) : List (String × String) :=
  if (s, t) ∈ edges then edges else edges ++ [(s, t)]

/-- `Flow.add_step` (flow.py lines 32-52).  `step_data = none` models a call
that omits the argument and therefore receives the shared mutable default
dict at `addStepDefaultRef`; `step_data = some d` models passing a fresh dict
literal, which is allocated as a new cell.  Returns the memory, the flow, and
the raised `ValueError` if any (on error the method raises before mutating,
so memory and flow are returned unchanged). -/
def Flow.add_step (m : Mem) (f : Flow) (step_name : String) (step_data : Option Dict) :
    Mem × Flow × Option VErr :=
  if f.is_locked then (m, f, some .locked)
  else if f.steps.any (fun s => s.step_name == step_name) then
    (m, f, some (.duplicateStep step_name))
  else
    match step_data with
    | none =>
      (m, { f with steps := f.steps ++ [{ step_name := step_name, step_ref := addStepDefaultRef }],
                   dagNodes := addNode f.dagNodes step_name }, none)
    | some d =>
      let al := m.alloc d
      (al.1, { f with steps := f.steps ++ [{ step_name := step_name, step_ref := al.2 }],
                      dagNodes := addNode f.dagNodes step_name }, none)

/-- `Flow.add_transition` (flow.py lines 54-74): locked check first, then both
endpoints must be existing DAG nodes. -/
def Flow.add_transition (f : Flow) (source target : String) : Flow × Option VErr :=
  if f.is_locked then (f, some .locked)
  else if source ∈ f.dagNodes then
    if target ∈ f.dagNodes then
      ({ f with dagEdges := addEdge f.dagEdges source target }, none)
    else (f, some (.unknownStep target))
  else (f, some (.unknownStep source))

/-- `Flow.update_step` (flow.py lines 80-86): merge `step_data` into the first
step with the given name via the in-place dict `update`, else raise. -/
def Flow.update_step (m : Mem) (f : Flow) (step_name : String) (step_data : Dict) :
    Mem × Option VErr :=
  match f.steps.find? (fun s => s.step_name == step_name) with
  | some s => (m.mergeAt s.step_ref step_data, none)
  | none => (m, some (.unknownStep step_name))

/-- `Flow.update_status` (flow.py lines 104-110): any of the four valid
statuses is always accepted and overwrites the current one; anything else
raises and leaves the status unchanged. -/
def Flow.update_status (f : Flow) (status : String) : Flow × Option VErr :=
  if status ∈ validStatuses then ({ f with status := status }, none)
  else (f, some (.invalidStatus status))

/-- `Flow.lock_flow` (flow.py lines 112-115). -/
def Flow.lock_flow (f : Flow) : Flow := { f with is_locked := true }

/-- The `Run` entity (run.py lines 11-25).  `datetime.now()` readings are
inputs: `now` abstracts the instant, the timestamp string used for a generated
`run_id` is passed alongside. -/
structure Run where
  run_id : String
  metrics : Dict
  start_time : Nat
  end_time : Option Nat
  flow_ref : Option String
  status : String
deriving DecidableEq

/-- `Run.__init__` (run.py lines 12-25): `run_id or timestamp` — a missing or
empty (falsy) `run_id` is replaced by the second-granularity timestamp
string. -/
def mkRun (run_id : Option String) (flow_ref : Option String) (nowStamp : String) (now : Nat) : Run :=
  { run_id :=
      match run_id with
      | some s => if s = "" then nowStamp else s
      | none => nowStamp,
    metrics := [], start_time := now, end_time := none,
    flow_ref := flow_ref, status := "created" }

/-- `Run.update_status` (run.py lines 50-60): same validation as the flow. -/
def Run.update_status (r : Run) (status : String) : Run × Option VErr :=
  if status ∈ validStatuses then ({ r with status := status }, none)
  else (r, some (.invalidStatus status))

/-- `Run.end_run` (run.py lines 44-48): unconditionally set `end_time` to the
current time, then `update_status("completed")`.  There is no terminal-state
check anywhere in the method. -/
def Run.end_run (r : Run) (now : Nat) : Run × Option VErr :=
  ({ r with end_time := some now }).update_status "completed"

/-- Exceptions observable at the facade boundary (logger.py):
`AttributeError` (missing attribute / uninitialized driver), `KeyError`
(unknown registry id), pydantic validation failure, and the entity-level
`ValueError`s propagating out of `Flow` / `Run` methods. -/
inductive PyErr where
  | attributeError (attr : String)
  | keyError (key : String)
  | validationError (msg : String)
  | valueError (e : VErr)
deriving DecidableEq

/-- The mutable state of the `MLWorkFlowLogger` singleton that the claims
observe: the mode flags and the in-memory `_flows` / `_runs` registries
(logger.py lines 62-69).  File-system side effects (`save_dataframe` CSV
appends) are not part of this state; `MLWorkFlowLogger.save_dataframe`
swallows every exception internally (logger.py lines 339-347), so those calls
never alter control flow. -/
structure LoggerState where
  local_mode : Bool
  db_driver_some : Bool
  flows : List (String × Flow)
  runs : List (String × Run)
deriving DecidableEq

/-- Outcome of each remote-driver call the facade may issue during one
operation (`true` = the driver call returns, `false` = it raises).  The driver
is an external collaborator, so its behavior is an input of the embedding. -/
structure DriverBehavior where
  save_flow_ok : Bool
  save_dataframe_ok : Bool
  save_metrics_ok : Bool
  update_run_status_ok : Bool
deriving DecidableEq

/-- Python's `not value.strip()` test used by the pydantic name validator
(models/flow_model.py lines 23-27): the string is blank iff every character is
whitespace. -/
def pyBlank (s : String) : Bool := s.toList.all (fun c => c.isWhitespace)

/-- Attribute read `flow.flow_id` performed by `MLWorkFlowLogger.add_new_flow`
(logger.py lines 119, 121, 124).  `Flow.__init__` (flow.py lines 24-25) defines
only `local_flow_id` and `global_flow_id`; the class has no attribute or
property named `flow_id`, so this lookup raises `AttributeError`. -/
def Flow.getAttr_flow_id (_f : Flow) : Except PyErr String :=
  .error (.attributeError "flow_id")

namespace MLWorkFlowLogger

/-- `MLWorkFlowLogger.add_new_flow` (logger.py lines 111-137).  Returns the
new logger state, the swallowed-and-logged persistence failure message if any,
and the returned flow id.  Local mode: constructs a `Flow`, then evaluates the
assignment target `self._flows[flow.flow_id]`, which raises.  Remote mode:
`FlowModel(name=flow_name)` first runs the pydantic validator rejecting a
blank name (models/flow_model.py lines 23-27); a missing driver raises
`AttributeError`; the `try` block around `save_flow` / `save_dataframe` logs
any driver exception and falls through to `return flow_dict["_id"]`.  The
fresh uuids of `Flow.__init__` / `FlowModel` are the `freshLocalId` /
`freshRemoteId` inputs. -/
def add_new_flow (st : LoggerState) (drv : DriverBehavior)
    (flow_name freshLocalId freshRemoteId : String) :
    Except PyErr (LoggerState × Option String × String) :=
  if st.local_mode then
    let flow := mkFlow freshLocalId flow_name
    match flow.getAttr_flow_id with
    | .error e => .error e
    | .ok fid => .ok ({ st with flows := pySet st.flows fid flow }, none, fid)
  else
    if pyBlank flow_name then .error (.validationError "Flow name cannot be empty")
    else if st.db_driver_some then
      if drv.save_flow_ok then
        if drv.save_dataframe_ok then .ok (st, none, freshRemoteId)
        else .ok (st, some "Failed to log flow", freshRemoteId)
      else .ok (st, some "Failed to log flow", freshRemoteId)
    else .error (.attributeError "db_driver")

/-- `MLWorkFlowLogger.start_new_run` (logger.py lines 167-205).  Local mode:
`_flows.get(flow_id)` — `None` raises `KeyError`; otherwise a `Run` is built
(its `run_id` is the timestamp string `nowStamp`), registered under that id
(overwriting any entry already stored under the same key), and the flow object
in the registry is mutated to status `"running"`; the CSV write is wrapped in
its own swallowed `try`.  Remote mode: `RunModel(flow_ref=flow_id)` passes a
`str` where the pydantic field `flow_ref: Optional[FlowModel]` expects a
model (models/run_model.py line 15), so validation raises before any driver
call. -/
def start_new_run (st : LoggerState) (_drv : DriverBehavior)
    (flow_id nowStamp : String) (now : Nat) :
    Except PyErr (LoggerState × String) :=
  if st.local_mode then
    match pyGet st.flows flow_id with
    | none => .error (.keyError flow_id)
    | some flow =>
      let run := mkRun none (some flow_id) nowStamp now
      let st1 := { st with runs := pySet st.runs run.run_id run }
      match flow.update_status "running" with
      | (flow', none) =>
        .ok ({ st1 with flows := pySet st1.flows flow_id flow' }, run.run_id)
      | (_, some e) => .error (.valueError e)
  else
    .error (.validationError "flow_ref")

/-- `MLWorkFlowLogger.log_metrics` (logger.py lines 207-226).  The whole body
is `if not self.local_mode: ...`: in local mode nothing at all happens (the
local branch is an unimplemented TODO, logger.py line 214); in remote mode the
registries are never consulted and the `try` around `save_metrics` /
`save_dataframe` logs and swallows any driver exception. -/
def log_metrics (st : LoggerState) (drv : DriverBehavior)
    (_flow_id _run_id : String) (_metrics : Dict) :
    Except PyErr (LoggerState × Option String) :=
  if st.local_mode then .ok (st, none)
  else if st.db_driver_some then
    if drv.save_metrics_ok then
      if drv.save_dataframe_ok then .ok (st, none)
      else .ok (st, some "Failed to log metrics")
    else .ok (st, some "Failed to log metrics")
  else .error (.attributeError "db_driver")

/-- `MLWorkFlowLogger.end_run` (logger.py lines 273-300).  Local mode: unknown
`run_id` raises `KeyError`; otherwise the registered run is set to
`"completed"` via `Run.update_status` (note: not `Run.end_run`, so `end_time`
stays untouched) and the CSV write is swallowed.  Remote mode: no registry
check; the `try` around `update_run_status` / `save_dataframe` logs and
swallows any driver exception. -/
def end_run (st : LoggerState) (drv : DriverBehavior)
    (_flow_id run_id : String) :
    Except PyErr (LoggerState × Option String) :=
  if st.local_mode then
    match pyGet st.runs run_id with
    | none => .error (.keyError run_id)
    | some run =>
      match run.update_status "completed" with
      | (run', none) => .ok ({ st with runs := pySet st.runs run_id run' }, none)
      | (_, some e) => .error (.valueError e)
  else if st.db_driver_some then
    if drv.update_run_status_ok then
      if drv.save_dataframe_ok then .ok (st, none)
      else .ok (st, some "Failed to update run status")
    else .ok (st, some "Failed to update run status")
  else .error (.attributeError "db_driver")

end MLWorkFlowLogger

/-!
Interleaving model of `MLWorkFlowLogger.__new__` (logger.py lines 26-32):

```
if cls._instance is None:        -- check1
    with cls._lock:              -- acquire ... release
        if cls._instance is None:  -- check2
            cls._instance = super().__new__(cls)   -- construct
return cls._instance             -- ret
```

Each thread executes this program; the shared state holds `cls._instance`
(`inst`, the allocated object identity as a `Nat`), the lock owner, and how
many objects have been constructed.  Each labelled program point is one atomic
step; any interleaving of the `n` threads is admitted.
-/

/-- Program points of `__new__` for one thread. -/
inductive PC where
  | check1
  | acquire
  | check2
  | construct
  | release
  | ret
  | done
deriving DecidableEq

/-- Shared state plus per-thread control state for `n` threads racing through
`MLWorkFlowLogger.__new__`.  `rets t` is the object the thread returned. -/
@[ext]
structure SingletonState (n : Nat) where
  inst : Option Nat
  lockOwner : Option (Fin n)
  pcs : Fin n → PC
  rets : Fin n → Option Nat
  constructed : Nat

/-- All threads are about to enter `__new__`; no instance exists yet. -/
def initState (n : Nat) : SingletonState n :=
  { inst := none, lockOwner := none, pcs := fun _ => .check1,
    rets := fun _ => none, constructed := 0 }

/-- One atomic step of one thread. -/
inductive SingletonStep (n : Nat) : SingletonState n → SingletonState n → Prop where
  | check1_none (s : SingletonState n) (t : Fin n) :
      s.pcs t = .check1 → s.inst = none →
      SingletonStep n s { s with pcs := Function.update s.pcs t .acquire }
  | check1_some (s : SingletonState n) (t : Fin n) (v : Nat) :
      s.pcs t = .check1 → s.inst = some v →
      SingletonStep n s { s with pcs := Function.update s.pcs t .ret }
  | acquire (s : SingletonState n) (t : Fin n) :
      s.pcs t = .acquire → s.lockOwner = none →
      SingletonStep n s { s with lockOwner := some t,
                                 pcs := Function.update s.pcs t .check2 }
  | check2_none (s : SingletonState n) (t : Fin n) :
      s.pcs t = .check2 → s.inst = none →
      SingletonStep n s { s with pcs := Function.update s.pcs t .construct }
  | check2_some (s : SingletonState n) (t : Fin n) (v : Nat) :
      s.pcs t = .check2 → s.inst = some v →
      SingletonStep n s { s with pcs := Function.update s.pcs t .release }
  | construct (s : SingletonState n) (t : Fin n) :
      s.pcs t = .construct →
      SingletonStep n s { s with inst := some s.constructed,
                                 constructed := s.constructed + 1,
                                 pcs := Function.update s.pcs t .release }
  | release (s : SingletonState n) (t : Fin n) :
      s.pcs t = .release →
      SingletonStep n s { s with lockOwner := none,
                                 pcs := Function.update s.pcs t .ret }
  | ret (s : SingletonState n) (t : Fin n) :
      s.pcs t = .ret →
      SingletonStep n s { s with rets := Function.update s.rets t s.inst,
                                 pcs := Function.update s.pcs t .done }

/-- States reachable from the initial state by any interleaving. -/
inductive Reachable (n : Nat) : SingletonState n → Prop where
  | init : Reachable n (initState n)
  | step {s s' : SingletonState n} :
      Reachable n s → SingletonStep n s s' → Reachable n s'

/-- A thread at one of these points holds the lock. -/
abbrev inCS (p : PC) : Prop := p = .check2 ∨ p = .construct ∨ p = .release

/-- Inductive invariant of the double-checked-locking protocol. -/
structure SInv (n : Nat) (s : SingletonState n) : Prop where
  mutex : ∀ t : Fin n, inCS (s.pcs t) → s.lockOwner = some t
  construct_none : ∀ t : Fin n, s.pcs t = .construct → s.inst = none
  inst_count : (s.inst = none ∧ s.constructed = 0) ∨
               (s.inst = some 0 ∧ s.constructed = 1)
  release_some : ∀ t : Fin n, s.pcs t = .release → s.inst = some 0
  ret_some : ∀ t : Fin n, s.pcs t = .ret → s.inst = some 0
  done_inst : ∀ t : Fin n, s.pcs t = .done → s.inst = some 0
  done_ret : ∀ t : Fin n, s.pcs t = .done → s.rets t = some 0

theorem sinv_init (n : Nat) : SInv n (initState n) := by
  refine ⟨?_, ?_, ?_, ?_, ?_, ?_, ?_⟩
  · intro t h
    simp [initState, inCS] at h
  · intro t h
    simp [initState] at h
  · left
    exact ⟨rfl, rfl⟩
  · intro t h
    simp [initState] at h
  · intro t h
    simp [initState] at h
  · intro t h
    simp [initState] at h
  · intro t h
    simp [initState] at h

theorem pc_prop_preserved {n : Nat} (s : SingletonState n) (t : Fin n) (p c : PC)
    (X : Fin n → Prop)
    (hnew : p = c → X t)
    (hold : ∀ u : Fin n, s.pcs u = c → X u)
    (u : Fin n) (hu : Function.update s.pcs t p u = c) : X u := by
  rcases eq_or_ne u t with rfl | hut
  · rw [Function.update_same] at hu
    exact hnew hu
  · rw [Function.update_noteq hut] at hu
    exact hold u hu

theorem mutex_preserved_nonCS {n : Nat} (s : SingletonState n) (t : Fin n) (p : PC)
    (hp : ¬ inCS p)
    (hold : ∀ u : Fin n, inCS (s.pcs u) → s.lockOwner = some u)
    (u : Fin n) (hu : inCS (Function.update s.pcs t p u)) :
    s.lockOwner = some u := by
  rcases eq_or_ne u t with rfl | hut
  · rw [Function.update_same] at hu
    exact absurd hu hp
  · rw [Function.update_noteq hut] at hu
    exact hold u hu

theorem mutex_preserved_inCS {n : Nat} (s : SingletonState n) (t : Fin n) (p : PC)
    (hlock : s.lockOwner = some t)
    (hold : ∀ u : Fin n, inCS (s.pcs u) → s.lockOwner = some u)
    (u : Fin n) (hu : inCS (Function.update s.pcs t p u)) :
    s.lockOwner = some u := by
  rcases eq_or_ne u t with rfl | hut
  · exact hlock
  · rw [Function.update_noteq hut] at hu
    exact hold u hu

theorem mutex_after_acquire {n : Nat} (s : SingletonState n) (t : Fin n)
    (hlock : s.lockOwner = none)
    (hold : ∀ u : Fin n, inCS (s.pcs u) → s.lockOwner = some u)
    (u : Fin n) (hu : inCS (Function.update s.pcs t PC.check2 u)) :
    some t = some u := by
  rcases eq_or_ne u t with rfl | hut
  · rfl
  · rw [Function.update_noteq hut] at hu
    have h1 := hold u hu
    rw [hlock] at h1
    cases h1

theorem mutex_after_release {n : Nat} (s : SingletonState n) (t : Fin n)
    (hpc : s.pcs t = PC.release)
    (hold : ∀ u : Fin n, inCS (s.pcs u) → s.lockOwner = some u)
    (u : Fin n) (hu : inCS (Function.update s.pcs t PC.ret u)) :
    (none : Option (Fin n)) = some u := by
  rcases eq_or_ne u t with rfl | hut
  · rw [Function.update_same] at hu
    simp [inCS] at hu
  · rw [Function.update_noteq hut] at hu
    have h1 := hold u hu
    have h2 := hold t (Or.inr (Or.inr hpc))
    rw [h2] at h1
    exact absurd (Option.some.inj h1).symm hut

theorem no_other_constructor {n : Nat} (s : SingletonState n) (t : Fin n) (X : Prop)
    (hlock : s.lockOwner = some t)
    (hold : ∀ u : Fin n, inCS (s.pcs u) → s.lockOwner = some u)
    (u : Fin n) (hu : Function.update s.pcs t PC.release u = PC.construct) : X := by
  rcases eq_or_ne u t with rfl | hut
  · rw [Function.update_same] at hu
    cases hu
  · rw [Function.update_noteq hut] at hu
    have h1 := hold u (Or.inr (Or.inl hu))
    rw [hlock] at h1
    exact absurd (Option.some.inj h1).symm hut

theorem done_ret_after_ret {n : Nat} (s : SingletonState n) (t : Fin n)
    (hv : s.inst = some 0)
    (hold : ∀ u : Fin n, s.pcs u = PC.done → s.rets u = some 0)
    (u : Fin n) (hu : Function.update s.pcs t PC.done u = PC.done) :
    Function.update s.rets t s.inst u = some 0 := by
  rcases eq_or_ne u t with rfl | hut
  · rw [Function.update_same, hv]
  · rw [Function.update_noteq hut] at hu
    rw [Function.update_noteq hut]
    exact hold u hu

theorem sinv_step {n : Nat} (s s' : SingletonState n)
    (inv : SInv n s) (hstep : SingletonStep n s s') : SInv n s' := by
  cases hstep with
  | check1_none t hpc hinst =>
    refine ⟨?_, ?_, inv.inst_count, ?_, ?_, ?_, ?_⟩
    · exact mutex_preserved_nonCS s t .acquire (by simp [inCS]) inv.mutex
    · exact pc_prop_preserved s t .acquire .construct (fun _ => s.inst = none)
        (fun h => by cases h) inv.construct_none
    · exact pc_prop_preserved s t .acquire .release (fun _ => s.inst = some 0)
        (fun h => by cases h) inv.release_some
    · exact pc_prop_preserved s t .acquire .ret (fun _ => s.inst = some 0)
        (fun h => by cases h) inv.ret_some
    · exact pc_prop_preserved s t .acquire .done (fun _ => s.inst = some 0)
        (fun h => by cases h) inv.done_inst
    · exact pc_prop_preserved s t .acquire .done (fun u => s.rets u = some 0)
        (fun h => by cases h) inv.done_ret
  | check1_some t v hpc hinst =>
    have hv : s.inst = some 0 := by
      rcases inv.inst_count with ⟨h1, _⟩ | ⟨h1, _⟩
      · rw [h1] at hinst
        cases hinst
      · exact h1
    refine ⟨?_, ?_, inv.inst_count, ?_, ?_, ?_, ?_⟩
    · exact mutex_preserved_nonCS s t .ret (by simp [inCS]) inv.mutex
    · exact pc_prop_preserved s t .ret .construct (fun _ => s.inst = none)
        (fun h => by cases h) inv.construct_none
    · exact pc_prop_preserved s t .ret .release (fun _ => s.inst = some 0)
        (fun h => by cases h) inv.release_some
    · exact pc_prop_preserved s t .ret .ret (fun _ => s.inst = some 0)
        (fun _ => hv) inv.ret_some
    · exact pc_prop_preserved s t .ret .done (fun _ => s.inst = some 0)
        (fun h => by cases h) inv.done_inst
    · exact pc_prop_preserved s t .ret .done (fun u => s.rets u = some 0)
        (fun h => by cases h) inv.done_ret
  | acquire t hpc hlock =>
    refine ⟨?_, ?_, inv.inst_count, ?_, ?_, ?_, ?_⟩
    · exact mutex_after_acquire s t hlock inv.mutex
    · exact pc_prop_preserved s t .check2 .construct (fun _ => s.inst = none)
        (fun h => by cases h) inv.construct_none
    · exact pc_prop_preserved s t .check2 .release (fun _ => s.inst = some 0)
        (fun h => by cases h) inv.release_some
    · exact pc_prop_preserved s t .check2 .ret (fun _ => s.inst = some 0)
        (fun h => by cases h) inv.ret_some
    · exact pc_prop_preserved s t .check2 .done (fun _ => s.inst = some 0)
        (fun h => by cases h) inv.done_inst
    · exact pc_prop_preserved s t .check2 .done (fun u => s.rets u = some 0)
        (fun h => by cases h) inv.done_ret
  | check2_none t hpc hinst =>
    have hlock : s.lockOwner = some t := inv.mutex t (Or.inl hpc)
    refine ⟨?_, ?_, inv.inst_count, ?_, ?_, ?_, ?_⟩
    · exact mutex_preserved_inCS s t .construct hlock inv.mutex
    · exact pc_prop_preserved s t .construct .construct (fun _ => s.inst = none)
        (fun _ => hinst) inv.construct_none
    · exact pc_prop_preserved s t .construct .release (fun _ => s.inst = some 0)
        (fun h => by cases h) inv.release_some
    · exact pc_prop_preserved s t .construct .ret (fun _ => s.inst = some 0)
        (fun h => by cases h) inv.ret_some
    · exact pc_prop_preserved s t .construct .done (fun _ => s.inst = some 0)
        (fun h => by cases h) inv.done_inst
    · exact pc_prop_preserved s t .construct .done (fun u => s.rets u = some 0)
        (fun h => by cases h) inv.done_ret
  | check2_some t v hpc hinst =>
    have hlock : s.lockOwner = some t := inv.mutex t (Or.inl hpc)
    have hv : s.inst = some 0 := by
      rcases inv.inst_count with ⟨h1, _⟩ | ⟨h1, _⟩
      · rw [h1] at hinst
        cases hinst
      · exact h1
    refine ⟨?_, ?_, inv.inst_count, ?_, ?_, ?_, ?_⟩
    · exact mutex_preserved_inCS s t .release hlock inv.mutex
    · exact pc_prop_preserved s t .release .construct (fun _ => s.inst = none)
        (fun h => by cases h) inv.construct_none
    · exact pc_prop_preserved s t .release .release (fun _ => s.inst = some 0)
        (fun _ => hv) inv.release_some
    · exact pc_prop_preserved s t .release .ret (fun _ => s.inst = some 0)
        (fun h => by cases h) inv.ret_some
    · exact pc_prop_preserved s t .release .done (fun _ => s.inst = some 0)
        (fun h => by cases h) inv.done_inst
    · exact pc_prop_preserved s t .release .done (fun u => s.rets u = some 0)
        (fun h => by cases h) inv.done_ret
  | construct t hpc =>
    have hlock : s.lockOwner = some t := inv.mutex t (Or.inr (Or.inl hpc))
    have hinst : s.inst = none := inv.construct_none t hpc
    have hcount : s.constructed = 0 := by
      rcases inv.inst_count with ⟨_, h2⟩ | ⟨h1, _⟩
      · exact h2
      · rw [h1] at hinst
        cases hinst
    refine ⟨?_, ?_, ?_, ?_, ?_, ?_, ?_⟩
    · exact mutex_preserved_inCS s t .release hlock inv.mutex
    · exact fun u hu => no_other_constructor s t _ hlock inv.mutex u hu
    · right
      exact ⟨by simp [hcount], by simp [hcount]⟩
    · intro u _
      simp [hcount]
    · intro u _
      simp [hcount]
    · intro u _
      simp [hcount]
    · exact pc_prop_preserved s t .release .done (fun u => s.rets u = some 0)
        (fun h => by cases h) inv.done_ret
  | release t hpc =>
    have hv : s.inst = some 0 := inv.release_some t hpc
    refine ⟨?_, ?_, inv.inst_count, ?_, ?_, ?_, ?_⟩
    · exact mutex_after_release s t hpc inv.mutex
    · exact pc_prop_preserved s t .ret .construct (fun _ => s.inst = none)
        (fun h => by cases h) inv.construct_none
    · exact pc_prop_preserved s t .ret .release (fun _ => s.inst = some 0)
        (fun h => by cases h) inv.release_some
    · exact pc_prop_preserved s t .ret .ret (fun _ => s.inst = some 0)
        (fun _ => hv) inv.ret_some
    · exact pc_prop_preserved s t .ret .done (fun _ => s.inst = some 0)
        (fun h => by cases h) inv.done_inst
    · exact pc_prop_preserved s t .ret .done (fun u => s.rets u = some 0)
        (fun h => by cases h) inv.done_ret
  | ret t hpc =>
    have hv : s.inst = some 0 := inv.ret_some t hpc
    refine ⟨?_, ?_, inv.inst_count, ?_, ?_, ?_, ?_⟩
    · exact mutex_preserved_nonCS s t .done (by simp [inCS]) inv.mutex
    · exact pc_prop_preserved s t .done .construct (fun _ => s.inst = none)
        (fun h => by cases h) inv.construct_none
    · exact pc_prop_preserved s t .done .release (fun _ => s.inst = some 0)
        (fun h => by cases h) inv.release_some
    · exact pc_prop_preserved s t .done .ret (fun _ => s.inst = some 0)
        (fun h => by cases h) inv.ret_some
    · exact pc_prop_preserved s t .done .done (fun _ => s.inst = some 0)
        (fun _ => hv) inv.done_inst
    · exact done_ret_after_ret s t hv inv.done_ret

theorem sinv_reachable {n : Nat} {s : SingletonState n}
    (h : Reachable n s) : SInv n s := by
  induction h with
  | init => exact sinv_init n
  | step _ hstep ih => exact sinv_step _ _ ih hstep

/-! Concrete fixtures used by witnesses and counterexamples. -/

/-- A local-mode logger state with empty registries. -/
def demoLocalState : LoggerState :=
  { local_mode := true, db_driver_some := false, flows := [], runs := [] }

/-- A driver whose calls all succeed. -/
def demoDrv : DriverBehavior :=
  { save_flow_ok := true, save_dataframe_ok := true,
    save_metrics_ok := true, update_run_status_ok := true }

/-- A flow already in the terminal status `"completed"`. -/
def cexFlowCompleted : Flow := { mkFlow "flow-1" "Flow1" with status := "completed" }

/-- A run already in the terminal status `"completed"`. -/
def cexRunCompleted : Run :=
  { mkRun (some "r1") (some "flow-1") "20250101-120000" 0 with status := "completed" }

/-- C1.  The claim says `add_new_flow` in local mode constructs a `Flow`,
registers it in `_flows` under its identifier, and returns that identifier.
In the code the registration line `self._flows[flow.flow_id] = flow`
(logger.py line 119) reads the attribute `flow_id`, which `Flow` does not
define (`Flow.__init__` defines `local_flow_id`, flow.py line 24), so every
local-mode call raises `AttributeError` before registering anything and never
returns an id.  This theorem shows the local-mode operation always fails with
that `AttributeError`. -/
theorem c1_add_new_flow_local_raises_attribute_error :
    ∀ (st : LoggerState) (drv : DriverBehavior)
      (flow_name freshLocalId freshRemoteId : String),
      st.local_mode = true →
      MLWorkFlowLogger.add_new_flow st drv flow_name freshLocalId freshRemoteId =
        .error (.attributeError "flow_id") := by
  intro st drv fn lid rid h
  simp [MLWorkFlowLogger.add_new_flow, h, Flow.getAttr_flow_id]

/-- Witness for C1 at a concrete local-mode state and flow name. -/
theorem c1_add_new_flow_local_raises_attribute_error_witness :
    MLWorkFlowLogger.add_new_flow demoLocalState demoDrv "training" "uuid-1" "uuid-2" =
      .error (.attributeError "flow_id") :=
  c1_add_new_flow_local_raises_attribute_error demoLocalState demoDrv
    "training" "uuid-1" "uuid-2" rfl

/-- C2 counterexample.  The claim says `"completed"` and `"failed"` are
terminal: no `update_status` call may change the status afterwards.  On a flow
and a run whose status is `"completed"`, `update_status("running")` succeeds
and sets the status to `"running"`, so the states are not terminal. -/
theorem c2_terminal_status_not_enforced_cex :
    cexFlowCompleted.status = "completed" ∧
    (cexFlowCompleted.update_status "running").2 = none ∧
    (cexFlowCompleted.update_status "running").1.status = "running" ∧
    cexRunCompleted.status = "completed" ∧
    (cexRunCompleted.update_status "running").2 = none ∧
    (cexRunCompleted.update_status "running").1.status = "running" := by
  refine ⟨rfl, ?_, ?_, rfl, ?_, ?_⟩ <;>
    simp [Flow.update_status, Run.update_status, validStatuses]

/-- C2 amended.  `Flow.update_status` (flow.py lines 104-110) and
`Run.update_status` (run.py lines 50-60) validate only that the new value is
one of the four statuses: any valid status is accepted at any time — including
transitions out of `"completed"` and `"failed"`, which are therefore not
terminal — while an invalid value raises `ValueError` and leaves the status
unchanged. -/
theorem c2_update_status_validates_value_only :
    ∀ (f : Flow) (r : Run) (status : String),
      (status ∈ validStatuses →
        f.update_status status = ({ f with status := status }, none) ∧
        r.update_status status = ({ r with status := status }, none)) ∧
      (status ∉ validStatuses →
        f.update_status status = (f, some (.invalidStatus status)) ∧
        r.update_status status = (r, some (.invalidStatus status))) := by
  intro f r status
  constructor <;> intro h <;>
    simp [Flow.update_status, Run.update_status, h]

/-- Witness for the amended C2: a completed flow and run both move to
`"running"`, and an invalid value is rejected. -/
theorem c2_update_status_validates_value_only_witness :
    (Flow.update_status cexFlowCompleted "running" =
      ({ cexFlowCompleted with status := "running" }, none) ∧
     Run.update_status cexRunCompleted "running" =
      ({ cexRunCompleted with status := "running" }, none)) ∧
    (Flow.update_status cexFlowCompleted "cancelled" =
      (cexFlowCompleted, some (.invalidStatus "cancelled")) ∧
     Run.update_status cexRunCompleted "cancelled" =
      (cexRunCompleted, some (.invalidStatus "cancelled"))) :=
  ⟨(c2_update_status_validates_value_only cexFlowCompleted cexRunCompleted "running").1
      (by decide),
   (c2_update_status_validates_value_only cexFlowCompleted cexRunCompleted "cancelled").2
      (by decide)⟩

/-- C3.  After `lock_flow` has set `_is_locked` (flow.py lines 112-115), both
`add_step` (flow.py line 43) and `add_transition` (flow.py line 65) check the
lock first and raise the locked `ValueError` before touching anything: the
returned memory and flow — in particular the step list and the DAG edge
list — are exactly the inputs.  The last conjunct records that `lock_flow`
establishes the hypothesis. -/
theorem c3_locked_flow_rejects_structural_mutation :
    ∀ (m : Mem) (f : Flow) (step_name : String) (step_data : Option Dict)
      (source target : String),
      f.is_locked = true →
      f.add_step m step_name step_data = (m, f, some .locked) ∧
      f.add_transition source target = (f, some .locked) ∧
      (Flow.lock_flow f).is_locked = true := by
  intro m f n d s t h
  refine ⟨?_, ?_, rfl⟩ <;> simp [Flow.add_step, Flow.add_transition, h]

/-- A freshly created and then locked flow. -/
def cexLockedFlow : Flow := (mkFlow "flow-2" "Flow2").lock_flow

/-- Witness for C3 on a concrete locked flow. -/
theorem c3_locked_flow_rejects_structural_mutation_witness :
    Flow.add_step initMem cexLockedFlow "s1" none = (initMem, cexLockedFlow, some .locked) ∧
    Flow.add_transition cexLockedFlow "s1" "s2" = (cexLockedFlow, some .locked) ∧
    (Flow.lock_flow cexLockedFlow).is_locked = true :=
  c3_locked_flow_rejects_structural_mutation initMem cexLockedFlow "s1" none "s1" "s2" rfl

/-- A locked flow that already contains a step named `"s1"`. -/
def cexLockedDupFlow : Flow :=
  { local_flow_id := "flow-3", is_locked := true, flow_name := "Flow3",
    status := "created",
    steps := [{ step_name := "s1", step_ref := addStepDefaultRef }],
    dagNodes := ["s1"], dagEdges := [] }

/-- C4 counterexample.  The claim says that on every flow already containing a
step of the given name, a second `add_step` fails with the duplicate fault.
`add_step` checks `_is_locked` first (flow.py lines 43-44), so on a *locked*
flow containing `"s1"` the call fails with the locked fault, not the
duplicate fault. -/
theorem c4_duplicate_behind_lock_cex :
    (cexLockedDupFlow.steps.any (fun s => s.step_name == "s1")) = true ∧
    Flow.add_step initMem cexLockedDupFlow "s1" none =
      (initMem, cexLockedDupFlow, some .locked) ∧
    VErr.locked ≠ VErr.duplicateStep "s1" := by
  refine ⟨by decide, ?_, by decide⟩
  simp [Flow.add_step, cexLockedDupFlow]

/-- C4 amended.  On an *unlocked* flow already containing a step with the
given name, `add_step` (flow.py lines 46-48) raises the duplicate
`ValueError` and returns before constructing or appending anything, so the
memory (hence every existing step's data) and the flow are unchanged. -/
theorem c4_duplicate_step_rejected_unchanged :
    ∀ (m : Mem) (f : Flow) (step_name : String) (step_data : Option Dict),
      f.is_locked = false →
      f.steps.any (fun s => s.step_name == step_name) = true →
      f.add_step m step_name step_data = (m, f, some (.duplicateStep step_name)) := by
  intro m f n d h1 h2
  simp [Flow.add_step, h1, h2]

/-- An unlocked flow that already contains a step named `"s1"`. -/
def cexUnlockedDupFlow : Flow :=
  { local_flow_id := "flow-4", is_locked := false, flow_name := "Flow4",
    status := "created",
    steps := [{ step_name := "s1", step_ref := addStepDefaultRef }],
    dagNodes := ["s1"], dagEdges := [] }

/-- Witness for the amended C4 on a concrete unlocked flow with an existing
`"s1"` step. -/
theorem c4_duplicate_step_rejected_unchanged_witness :
    Flow.add_step initMem cexUnlockedDupFlow "s1" (some [("k", Val.vint 1)]) =
      (initMem, cexUnlockedDupFlow, some (.duplicateStep "s1")) :=
  c4_duplicate_step_rejected_unchanged initMem cexUnlockedDupFlow "s1"
    (some [("k", Val.vint 1)]) rfl (by decide)

/-- C5.  The claim says `log_metrics` fails with a not-found fault for an
unknown `run_id` and otherwise merges the metrics into the registered
`RunEntity`.  The method body (logger.py lines 207-226) is
`if not self.local_mode: ...` with the local branch an explicit TODO: in local
mode the call returns without consulting either registry and without touching
any run — no fault for an unknown run id, and no merge for a known one.  (The
remote branch only forwards to the driver and never touches the `Run`
entity either.) -/
theorem c5_log_metrics_local_is_noop :
    ∀ (st : LoggerState) (drv : DriverBehavior) (flow_id run_id : String)
      (metrics : Dict),
      st.local_mode = true →
      MLWorkFlowLogger.log_metrics st drv flow_id run_id metrics = .ok (st, none) := by
  intro st drv f r ms h
  simp [MLWorkFlowLogger.log_metrics, h]

/-- A local-mode state holding one registered run `"r1"` with empty metrics. -/
def c5RunState : LoggerState :=
  { local_mode := true, db_driver_some := false, flows := [],
    runs := [("r1", mkRun (some "r1") (some "f1") "20250101-120000" 0)] }

/-- Witness for C5: scenario D of the spec — logging `accuracy` for the
registered run `"r1"` leaves the state (hence the run's empty metrics)
untouched, and logging against an unknown run id raises nothing. -/
theorem c5_log_metrics_local_is_noop_witness :
    MLWorkFlowLogger.log_metrics c5RunState demoDrv "f1" "r1"
      [("accuracy", Val.vstr "0.9")] = .ok (c5RunState, none) ∧
    MLWorkFlowLogger.log_metrics c5RunState demoDrv "f1" "unknown-run"
      [("accuracy", Val.vstr "0.9")] = .ok (c5RunState, none) :=
  ⟨c5_log_metrics_local_is_noop c5RunState demoDrv "f1" "r1" _ rfl,
   c5_log_metrics_local_is_noop c5RunState demoDrv "f1" "unknown-run" _ rfl⟩

/-- A local-mode state with flow `"f1"` registered and a run already
registered under the timestamp key `"20250101-120000"`. -/
def c6State : LoggerState :=
  { local_mode := true, db_driver_some := false,
    flows := [("f1", mkFlow "f1" "Flow1")],
    runs := [("20250101-120000",
              mkRun (some "20250101-120000") (some "f1") "20250101-120000" 0)] }

/-- The state produced by starting a run of `"f1"` at second
`"20250101-120000"` from `c6State`: the pre-existing run entry is
overwritten. -/
def c6StateAfter : LoggerState :=
  { local_mode := true, db_driver_some := false,
    flows := [("f1", { mkFlow "f1" "Flow1" with status := "running" })],
    runs := [("20250101-120000", mkRun none (some "f1") "20250101-120000" 5)] }

/-- C6 counterexample.  The claim says the returned `run_id` was not
previously present in the run registry.  `Run.__init__` derives the id from a
second-granularity timestamp (run.py line 19), so starting a run in the same
second as an existing one returns an id that was already a key of `_runs`
(and silently overwrites that entry). -/
theorem c6_run_id_can_preexist_cex :
    (pyGet c6State.runs "20250101-120000").isSome = true ∧
    MLWorkFlowLogger.start_new_run c6State demoDrv "f1" "20250101-120000" 5 =
      .ok (c6StateAfter, "20250101-120000") := by
  constructor
  · decide
  · rfl

/-- C6 amended.  In local mode `start_new_run` (logger.py lines 176-191):
an unknown flow id raises `KeyError`; otherwise it creates a `Run` whose id is
the timestamp string, registers it under that id (overwriting any run already
stored under the same key), transitions the owning flow's status to
`"running"`, and returns the id — which is fresh only when no run was already
registered under the same timestamp string. -/
theorem c6_start_new_run_local_behavior :
    ∀ (st : LoggerState) (drv : DriverBehavior) (flow_id nowStamp : String)
      (now : Nat),
      st.local_mode = true →
      (pyGet st.flows flow_id = none →
        MLWorkFlowLogger.start_new_run st drv flow_id nowStamp now =
          .error (.keyError flow_id)) ∧
      (∀ flow, pyGet st.flows flow_id = some flow →
        MLWorkFlowLogger.start_new_run st drv flow_id nowStamp now =
          .ok ({ st with
                  runs := pySet st.runs nowStamp (mkRun none (some flow_id) nowStamp now),
                  flows := pySet st.flows flow_id { flow with status := "running" } },
               nowStamp)) := by
  intro st drv fid ts now hl
  constructor
  · intro hnone
    simp [MLWorkFlowLogger.start_new_run, hl, hnone]
  · intro flow hsome
    simp only [MLWorkFlowLogger.start_new_run, hl, hsome, if_true]
    rw [Flow.update_status, if_pos (show "running" ∈ validStatuses by decide)]
    rfl

/-- Witness for the amended C6: starting against an unknown flow raises
`KeyError` (scenario C of the spec), and starting against the registered flow
`"f1"` registers the run and moves the flow to `"running"`. -/
theorem c6_start_new_run_local_behavior_witness :
    MLWorkFlowLogger.start_new_run c6State demoDrv "nonexistent_flow" "20250102-090000" 7 =
      .error (.keyError "nonexistent_flow") ∧
    MLWorkFlowLogger.start_new_run c6State demoDrv "f1" "20250102-090000" 7 =
      .ok ({ c6State with
              runs := pySet c6State.runs "20250102-090000"
                        (mkRun none (some "f1") "20250102-090000" 7),
              flows := pySet c6State.flows "f1"
                        { mkFlow "f1" "Flow1" with status := "running" } },
           "20250102-090000") :=
  ⟨(c6_start_new_run_local_behavior c6State demoDrv "nonexistent_flow"
      "20250102-090000" 7 rfl).1 (by decide),
   (c6_start_new_run_local_behavior c6State demoDrv "f1"
      "20250102-090000" 7 rfl).2 (mkFlow "f1" "Flow1") (by decide)⟩

/-- C7.  The claim says calling `end` on a run in a terminal status fails
with an invalid-state fault without setting `end_time` or changing the
status.  `Run.end_run` (run.py lines 44-48) has no terminal-state check of
any kind: on a `"completed"` or `"failed"` run it still sets `end_time` to
the current time and sets the status to `"completed"`, raising nothing.
(`MLWorkFlowLogger.end_run`, logger.py lines 279-289, likewise calls
`update_status("completed")` unconditionally on the registered run.) -/
theorem c7_end_run_ignores_terminal_state :
    ∀ (r : Run) (now : Nat),
      r.status = "completed" ∨ r.status = "failed" →
      r.end_run now = ({ r with end_time := some now, status := "completed" }, none) := by
  intro r now _
  rw [Run.end_run, Run.update_status, if_pos (show "completed" ∈ validStatuses by decide)]

/-- Witness for C7: ending an already-completed run again succeeds and
overwrites `end_time`. -/
theorem c7_end_run_ignores_terminal_state_witness :
    Run.end_run cexRunCompleted 3 =
      ({ cexRunCompleted with end_time := some 3, status := "completed" }, none) :=
  c7_end_run_ignores_terminal_state cexRunCompleted 3 (Or.inl rfl)

/-- A remote-mode logger state with an initialized driver. -/
def c8RemoteState : LoggerState :=
  { local_mode := false, db_driver_some := true, flows := [], runs := [] }

/-- A driver whose calls all raise. -/
def c8FailingDrv : DriverBehavior :=
  { save_flow_ok := false, save_dataframe_ok := false,
    save_metrics_ok := false, update_run_status_ok := false }

/-- C8 counterexample.  The claim says a persistence fault is logged and then
re-raised to the caller.  Every `try` block in logger.py (`add_new_flow`
lines 131-137, `end_run` lines 294-300, and the others) ends in
`except Exception as e: logger.error(...)` with no `raise`: with a driver
whose calls raise, both operations still return success to the caller, the
fault having been logged and swallowed. -/
theorem c8_fault_swallowed_not_reraised_cex :
    MLWorkFlowLogger.add_new_flow c8RemoteState c8FailingDrv "Flow1" "lid-1" "rid-1" =
      .ok (c8RemoteState, some "Failed to log flow", "rid-1") ∧
    MLWorkFlowLogger.end_run c8RemoteState c8FailingDrv "f1" "r1" =
      .ok (c8RemoteState, some "Failed to update run status") := by
  constructor
  · rfl
  · rfl

/-- C8 amended.  When the persistence layer raises during a facade operation,
the facade logs the fault and swallows it: the operation returns normally
(success) to the caller, the fault is never re-raised, and it is never
retried.  Stated for the modeled persistence-calling operations
`add_new_flow` and `end_run` in remote mode, for every driver behavior. -/
theorem c8_persistence_faults_logged_and_swallowed :
    ∀ (st : LoggerState) (drv : DriverBehavior)
      (flow_name freshLocalId freshRemoteId flow_id run_id : String),
      st.local_mode = false → st.db_driver_some = true → pyBlank flow_name = false →
      (∃ logged, MLWorkFlowLogger.add_new_flow st drv flow_name freshLocalId freshRemoteId =
          .ok (st, logged, freshRemoteId)) ∧
      (∃ logged, MLWorkFlowLogger.end_run st drv flow_id run_id = .ok (st, logged)) := by
  intro st drv fn lid rid fid runid h1 h2 h3
  constructor
  · by_cases hsf : drv.save_flow_ok = true
    · by_cases hsd : drv.save_dataframe_ok = true
      · exact ⟨none, by simp [MLWorkFlowLogger.add_new_flow, h1, h2, h3, hsf, hsd]⟩
      · exact ⟨some "Failed to log flow",
          by simp [MLWorkFlowLogger.add_new_flow, h1, h2, h3, hsf, hsd]⟩
    · exact ⟨some "Failed to log flow",
        by simp [MLWorkFlowLogger.add_new_flow, h1, h2, h3, hsf]⟩
  · by_cases hur : drv.update_run_status_ok = true
    · by_cases hsd : drv.save_dataframe_ok = true
      · exact ⟨none, by simp [MLWorkFlowLogger.end_run, h1, h2, hur, hsd]⟩
      · exact ⟨some "Failed to update run status",
          by simp [MLWorkFlowLogger.end_run, h1, h2, hur, hsd]⟩
    · exact ⟨some "Failed to update run status",
        by simp [MLWorkFlowLogger.end_run, h1, h2, hur]⟩

/-- Witness for the amended C8 with an all-raising driver. -/
theorem c8_persistence_faults_logged_and_swallowed_witness :
    (∃ logged, MLWorkFlowLogger.add_new_flow c8RemoteState c8FailingDrv "FlowW" "lw" "rw" =
        .ok (c8RemoteState, logged, "rw")) ∧
    (∃ logged, MLWorkFlowLogger.end_run c8RemoteState c8FailingDrv "fw" "rr" =
        .ok (c8RemoteState, logged)) :=
  c8_persistence_faults_logged_and_swallowed c8RemoteState c8FailingDrv
    "FlowW" "lw" "rw" "fw" "rr" rfl rfl (by decide)

/-- C9.  The double-checked-locking `__new__` (logger.py lines 26-32):
in every state reachable by any interleaving of `n` threads, at most one
instance has been constructed; every thread that has finished returned the
single constructed instance (`some 0`), so all returned handles are
reference-equal and once any thread finished exactly one instance exists. -/
theorem c9_singleton_dcl_unique :
    ∀ (n : Nat) (s : SingletonState n), Reachable n s →
      s.constructed ≤ 1 ∧
      (∀ t : Fin n, s.pcs t = PC.done → s.rets t = some 0 ∧ s.constructed = 1) ∧
      (∀ t u : Fin n, s.pcs t = PC.done → s.pcs u = PC.done → s.rets t = s.rets u) := by
  intro n s h
  have inv := sinv_reachable h
  have hcount : s.constructed ≤ 1 := by
    rcases inv.inst_count with ⟨_, h2⟩ | ⟨_, h2⟩ <;> simp [h2]
  have hdone : ∀ t : Fin n, s.pcs t = PC.done → s.rets t = some 0 ∧ s.constructed = 1 := by
    intro t ht
    have hr := inv.done_ret t ht
    have hi := inv.done_inst t ht
    have hc : s.constructed = 1 := by
      rcases inv.inst_count with ⟨h1, _⟩ | ⟨_, h2⟩
      · rw [h1] at hi
        cases hi
      · exact h2
    exact ⟨hr, hc⟩
  refine ⟨hcount, hdone, ?_⟩
  intro t u ht hu
  rw [(hdone t ht).1, (hdone u hu).1]

/-- Both-thread program counters for the two-thread demonstration trace. -/
def pcsBoth (a b : PC) : Fin 2 → PC := fun t => if t = 0 then a else b

/-- Both-thread return slots for the two-thread demonstration trace. -/
def retsBoth (a b : Option Nat) : Fin 2 → Option Nat := fun t => if t = 0 then a else b

def w1 : SingletonState 2 :=
  { inst := none, lockOwner := none, pcs := pcsBoth .acquire .check1,
    rets := retsBoth none none, constructed := 0 }

def w2 : SingletonState 2 :=
  { inst := none, lockOwner := some 0, pcs := pcsBoth .check2 .check1,
    rets := retsBoth none none, constructed := 0 }

def w3 : SingletonState 2 :=
  { inst := none, lockOwner := some 0, pcs := pcsBoth .construct .check1,
    rets := retsBoth none none, constructed := 0 }

def w4 : SingletonState 2 :=
  { inst := some 0, lockOwner := some 0, pcs := pcsBoth .release .check1,
    rets := retsBoth none none, constructed := 1 }

def w5 : SingletonState 2 :=
  { inst := some 0, lockOwner := none, pcs := pcsBoth .ret .check1,
    rets := retsBoth none none, constructed := 1 }

def w6 : SingletonState 2 :=
  { inst := some 0, lockOwner := none, pcs := pcsBoth .done .check1,
    rets := retsBoth (some 0) none, constructed := 1 }

def w7 : SingletonState 2 :=
  { inst := some 0, lockOwner := none, pcs := pcsBoth .done .ret,
    rets := retsBoth (some 0) none, constructed := 1 }

/-- Final state of the demonstration trace: thread 0 constructed the
instance, thread 1 saw it at the first check; both are done. -/
def w8 : SingletonState 2 :=
  { inst := some 0, lockOwner := none, pcs := pcsBoth .done .done,
    rets := retsBoth (some 0) (some 0), constructed := 1 }

theorem w8_reachable : Reachable 2 w8 := by
  have e1 : ({ initState 2 with
      pcs := Function.update (initState 2).pcs 0 .acquire } : SingletonState 2) = w1 := by
    ext t <;> first | rfl | (fin_cases t <;> rfl)
  have e2 : ({ w1 with
      lockOwner := some 0,
      pcs := Function.update w1.pcs 0 .check2 } : SingletonState 2) = w2 := by
    ext t <;> first | rfl | (fin_cases t <;> rfl)
  have e3 : ({ w2 with
      pcs := Function.update w2.pcs 0 .construct } : SingletonState 2) = w3 := by
    ext t <;> first | rfl | (fin_cases t <;> rfl)
  have e4 : ({ w3 with
      inst := some w3.constructed,
      constructed := w3.constructed + 1,
      pcs := Function.update w3.pcs 0 .release } : SingletonState 2) = w4 := by
    ext t <;> first | rfl | (fin_cases t <;> rfl)
  have e5 : ({ w4 with
      lockOwner := none,
      pcs := Function.update w4.pcs 0 .ret } : SingletonState 2) = w5 := by
    ext t <;> first | rfl | (fin_cases t <;> rfl)
  have e6 : ({ w5 with
      rets := Function.update w5.rets 0 w5.inst,
      pcs := Function.update w5.pcs 0 .done } : SingletonState 2) = w6 := by
    ext t <;> first | rfl | (fin_cases t <;> rfl)
  have e7 : ({ w6 with
      pcs := Function.update w6.pcs 1 .ret } : SingletonState 2) = w7 := by
    ext t <;> first | rfl | (fin_cases t <;> rfl)
  have e8 : ({ w7 with
      rets := Function.update w7.rets 1 w7.inst,
      pcs := Function.update w7.pcs 1 .done } : SingletonState 2) = w8 := by
    ext t <;> first | rfl | (fin_cases t <;> rfl)
  have r1 : Reachable 2 w1 :=
    e1 ▸ Reachable.step Reachable.init (SingletonStep.check1_none (initState 2) 0 rfl rfl)
  have r2 : Reachable 2 w2 :=
    e2 ▸ Reachable.step r1 (SingletonStep.acquire w1 0 rfl rfl)
  have r3 : Reachable 2 w3 :=
    e3 ▸ Reachable.step r2 (SingletonStep.check2_none w2 0 rfl rfl)
  have r4 : Reachable 2 w4 :=
    e4 ▸ Reachable.step r3 (SingletonStep.construct w3 0 rfl)
  have r5 : Reachable 2 w5 :=
    e5 ▸ Reachable.step r4 (SingletonStep.release w4 0 rfl)
  have r6 : Reachable 2 w6 :=
    e6 ▸ Reachable.step r5 (SingletonStep.ret w5 0 rfl)
  have r7 : Reachable 2 w7 :=
    e7 ▸ Reachable.step r6 (SingletonStep.check1_some w6 1 0 rfl rfl)
  exact e8 ▸ Reachable.step r7 (SingletonStep.ret w7 1 rfl)

/-- Witness for C9: after the two-thread trace in which thread 0 constructs
and thread 1 hits the fast path, exactly one instance was constructed and
both threads returned it. -/
theorem c9_singleton_dcl_unique_witness :
    w8.constructed = 1 ∧ w8.rets 0 = some 0 ∧ w8.rets 1 = some 0 := by
  have h := c9_singleton_dcl_unique 2 w8 w8_reachable
  exact ⟨(h.2.1 0 rfl).2, (h.2.1 0 rfl).1, (h.2.1 1 rfl).1⟩

/-- C10.  `Flow.add_step`'s default argument `step_data={}` (flow.py line 32)
is one dict object created at function-definition time, so every step added
without an explicit `step_data` stores a reference to that same object
(`addStepDefaultRef`).  If `update_step` merges keys into a step whose data is
the default object, then: the call succeeds; every step of the flow whose
data is the default object observes the merged key (last conjunct of the
second part); and any step subsequently added with the default — to this or
any other unlocked flow — also stores the default reference and observes the
merged key (third part; `add_step` with the default allocates nothing, so the
memory is returned unchanged).  The hypotheses say: the default cell exists
in memory, the first step named `target_name` has the default reference, and
`upd` binds `k` to `v` (uniquely, as in a Python dict literal). -/
theorem c10_default_step_data_shared :
    ∀ (m : Mem) (f : Flow) (target_name : String) (upd : Dict) (k : String)
      (v : Val) (s1 : Step),
      addStepDefaultRef < m.cells.length →
      f.steps.find? (fun s => s.step_name == target_name) = some s1 →
      s1.step_ref = addStepDefaultRef →
      pyGet upd k = some v →
      (∀ p ∈ upd, p.1 = k → p.2 = v) →
      (f.update_step m target_name upd).2 = none ∧
      (∀ s2 ∈ f.steps, s2.step_ref = addStepDefaultRef →
        pyGet ((f.update_step m target_name upd).1.read s2.step_ref) k = some v) ∧
      (∀ (g : Flow) (n2 : String), g.is_locked = false →
        g.steps.any (fun s => s.step_name == n2) = false →
        (g.add_step (f.update_step m target_name upd).1 n2 none).1 =
          (f.update_step m target_name upd).1 ∧
        (g.add_step (f.update_step m target_name upd).1 n2 none).2.1.steps =
          g.steps ++ [{ step_name := n2, step_ref := addStepDefaultRef }] ∧
        pyGet ((f.update_step m target_name upd).1.read addStepDefaultRef) k = some v) := by
  intro m f nm upd k v s1 hlen hfind href hget huni
  have hupd : f.update_step m nm upd = (m.mergeAt s1.step_ref upd, none) := by
    simp [Flow.update_step, hfind]
  have hread : pyGet ((m.mergeAt s1.step_ref upd).read addStepDefaultRef) k = some v := by
    rw [href, Mem.read, Mem.mergeAt, cellsGet_cellsMerge_self _ _ _ hlen]
    exact pyGet_dictUpdate_of_uniform _ _ _ _ hget huni
  refine ⟨by rw [hupd], ?_, ?_⟩
  · intro s2 _ hs2
    rw [hupd, hs2]
    exact hread
  · intro g n2 hg1 hg2
    rw [hupd]
    refine ⟨?_, ?_, hread⟩ <;> simp [Flow.add_step, hg1, hg2]

/-- A flow whose steps `"a"` and `"b"` were both added with the default
`step_data` argument, so both reference the shared default dict. -/
def c10Flow : Flow :=
  { local_flow_id := "flow-10", is_locked := false, flow_name := "Flow10",
    status := "created",
    steps := [{ step_name := "a", step_ref := addStepDefaultRef },
              { step_name := "b", step_ref := addStepDefaultRef }],
    dagNodes := ["a", "b"], dagEdges := [] }

/-- Witness for C10: merging `k ↦ 1` into step `"a"` makes the same binding
observable through step `"b"`'s data. -/
theorem c10_default_step_data_shared_witness :
    (Flow.update_step initMem c10Flow "a" [("k", Val.vint 1)]).2 = none ∧
    pyGet ((Flow.update_step initMem c10Flow "a" [("k", Val.vint 1)]).1.read
      addStepDefaultRef) "k" = some (Val.vint 1) := by
  have h := c10_default_step_data_shared initMem c10Flow "a" [("k", Val.vint 1)]
    "k" (Val.vint 1) { step_name := "a", step_ref := addStepDefaultRef }
    (by decide) (by decide) rfl rfl (by decide)
  exact ⟨h.1, h.2.1 { step_name := "b", step_ref := addStepDefaultRef } (by decide) rfl⟩

end MLWF
